import Mathlib

/-!
Shallow embedding of the hook-runner webhook scheduler (Deno/TypeScript).

Instants are UTC epoch milliseconds, modelled as `Nat` (every instant the
program manipulates is a `Date.getTime()` of a real wall-clock time, hence
nonnegative).  The Deno KV store is modelled as association lists, one per
key prefix actually used by the program (`["webhooks", id]` and
`["last_triggered", id]`).  The `croner` library and `fetch` are external
collaborators and enter the model as function parameters (oracles); the
JS built-ins `Date`'s UTC accessors and `atob` are deterministic and are
implemented faithfully below.
-/

namespace HookRunner

/-! ## JS Date: UTC field accessors

`new Date(ms)` with the `getUTC*` accessors, for nonnegative epoch
milliseconds.  The year/month/day computation is standard proleptic
Gregorian civil-from-days arithmetic.  Note `getUTCMonth` is 0-based in
JavaScript.  The scheduler round-trips instants through
`Date.prototype.toISOString` / `new Date(string)`, which is the identity
on the underlying millisecond value, so watermark values are stored here
directly as milliseconds. -/

def msPerMinute : Nat := 60 * 1000

def msPerHour : Nat := 3600 * 1000

def msPerDay : Nat := 86400 * 1000

/-- Civil calendar date (year, month 1..12, day 1..31) from a count of days
since 1970-01-01, for `z ≥ 0` (all dates this program handles). -/
def civilFromDays (z : Nat) : Nat × Nat × Nat :=
  let zs := z + 719468
  let era := zs / 146097
  let doe := zs % 146097
  let yoe := (doe - doe / 1460 + doe / 36524 - doe / 146096) / 365
  let y := yoe + era * 400
  let doy := doe - (365 * yoe + yoe / 4 - yoe / 100)
  let mp := (5 * doy + 2) / 153
  let d := doy - (153 * mp + 2) / 5 + 1
  let m := if mp < 10 then mp + 3 else mp - 9
  (if m ≤ 2 then y + 1 else y, m, d)

def getUTCFullYear (ms : Nat) : Nat := (civilFromDays (ms / msPerDay)).1

def getUTCMonth (ms : Nat) : Nat := (civilFromDays (ms / msPerDay)).2.1 - 1

def getUTCDate (ms : Nat) : Nat := (civilFromDays (ms / msPerDay)).2.2

def getUTCHours (ms : Nat) : Nat := ms / msPerHour % 24

def getUTCMinutes (ms : Nat) : Nat := ms / msPerMinute % 60

/-- The five-field UTC comparison performed by the dispatch loop
(lines 47–51 of the scheduler): year, month, day, hours and minutes of
`a` all equal those of `b`. -/
def sameUTCMinute (a b : Nat) : Bool :=
  getUTCFullYear a == getUTCFullYear b &&
  getUTCMonth a == getUTCMonth b &&
  getUTCDate a == getUTCDate b &&
  getUTCHours a == getUTCHours b &&
  getUTCMinutes a == getUTCMinutes b

/-! ## Data model and KV store -/

/-- The `Webhook` interface of `main.ts`. -/
structure Webhook where
  id : String
  name : String
  url : String
  schedule : String
  createdAt : String
deriving DecidableEq, Repr

/-- `kv.get([prefix, k])` over an association list. -/
def kvGet {α : Type} (l : List (String × α)) (k : String) : Option α :=
  match l with
  | [] => none
  | (k', v) :: rest => if k' = k then some v else kvGet rest k

/-- `kv.set([prefix, k], v)`: overwrite the entry for `k` (or append it). -/
def kvSet {α : Type} (l : List (String × α)) (k : String) (v : α) :
    List (String × α) :=
  match l with
  | [] => [(k, v)]
  | (k', v') :: rest =>
    if k' = k then (k, v) :: rest else (k', v') :: kvSet rest k v

/-- `kv.delete([prefix, k])`: remove the entry for `k`. -/
def kvDelete {α : Type} (l : List (String × α)) (k : String) :
    List (String × α) :=
  match l with
  | [] => []
  | (k', v') :: rest =>
    if k' = k then kvDelete rest k else (k', v') :: kvDelete rest k

/-- The two KV key prefixes the program uses: schedule records under
`["webhooks", id]` and watermarks under `["last_triggered", id]`. -/
structure KVState where
  webhooks : List (String × Webhook)
  lastTriggered : List (String × Nat)
deriving DecidableEq, Repr

/-! ## Callback dispatcher: `pingWebhook`

`fetch` is external; a call either rejects (network-level error: timeout,
DNS failure, connection refused) or resolves to a response carrying `ok`,
`status`, and a `text()` body read that itself may reject.  JS exceptions
are modelled with `Except`: a `.error` value is an exception crossing the
enclosing boundary. -/

inductive FetchOutcome where
  | thrown
  | response (ok : Bool) (status : Nat) (textFails : Bool)
deriving DecidableEq, Repr

inductive JsError where
  | fetchError
  | textError
deriving DecidableEq, Repr

inductive PingEvent where
  | skippedNoUrl (name : String)
  | pingSuccess (name : String) (status : Nat)
  | pingFailure (name : String) (status : Nat)
  | pingError (name : String)
deriving DecidableEq, Repr

/-- Body of the `try` block of `pingWebhook`: perform the POST and branch
on `response.ok`; in the failure branch `await response.text()` may itself
reject. -/
def pingAttempt (name : String) (f : FetchOutcome) : Except JsError PingEvent :=
  match f with
  | .thrown => .error .fetchError
  | .response ok status textFails =>
    if ok then .ok (.pingSuccess name status)
    else if textFails then .error .textError
    else .ok (.pingFailure name status)

/-- `pingWebhook(webhookUrl, name)`: skip on a falsy URL, otherwise run the
attempt under `try`/`catch`; the `catch` turns any exception into a logged
`pingError`.  The result type records whether an exception escapes. -/
def pingWebhook (webhookUrl name : String) (f : FetchOutcome) :
    Except JsError PingEvent :=
  if webhookUrl = "" then .ok (.skippedNoUrl name)
  else
    match pingAttempt name f with
    | .ok ev => .ok ev
    | .error _ => .ok (.pingError name)

/-! ## The dispatch loop (`webhook-kv-scheduler` cron callback)

The croner evaluator enters as an oracle
`cron : String → Option (Nat → Option Nat)`: `cron s = none` models
`new Cron(s)` throwing a parse error, and a returned `nextRun` function
models `cron.nextRun(from)` (`none` = `null`, no next occurrence).
Per-schedule KV faults are injected through a `fault` oracle keyed by the
schedule id (the loop body touches only that schedule's own keys); a
rejected `kv.get`/`kv.set` is an exception caught by the per-schedule
`try`/`catch`, with all effects performed before the throw kept. -/

inductive KvFault where
  | ok
  | getFails
  | setFails
deriving DecidableEq, Repr

inductive TickEvent where
  | triggered (id : String)
  | ping (ev : PingEvent) (url : String)
  | alreadyTriggered (id : String)
  | cronParseError (id : String)
  | storeError (id : String)
deriving DecidableEq, Repr

/-- `TickEvent.ping` marks an invocation of the callback dispatcher. -/
def isPing : TickEvent → Bool
  | .ping _ _ => true
  | _ => false

/-- The loop body for one schedule (lines 29–67 of the scheduler): parse
the cron expression, query the next occurrence from one minute before
`now`, test the 5-second window, consult the watermark's UTC minute, and
on a fresh occurrence dispatch then write the watermark to `now`.
Returns the updated watermark store and the log/dispatch events.
(`pingWebhook` is proved total below, so its `.error` branch is dead.) -/
def processHook (cron : String → Option (Nat → Option Nat))
    (fetchFor : String → FetchOutcome) (fault : String → KvFault)
    (now : Nat) (wm : List (String × Nat)) (hook : Webhook) :
    List (String × Nat) × List TickEvent :=
  match cron hook.schedule with
  | none => (wm, [.cronParseError hook.id])
  | some nextRun =>
    let minuteAgo := now - msPerMinute
    match nextRun minuteAgo with
    | none => (wm, [])
    | some occ =>
      if ((now : Int) - (occ : Int)).natAbs < 5 * 1000 then
        if fault hook.id = .getFails then (wm, [.storeError hook.id])
        else
          let lastTriggeredEntry := kvGet wm hook.id
          let hasTriggeredThisMinute :=
            match lastTriggeredEntry with
            | some lastTriggered => sameUTCMinute lastTriggered now
            | none => false
          if !hasTriggeredThisMinute then
            let pingEv :=
              match pingWebhook hook.url hook.name (fetchFor hook.url) with
              | .ok ev => ev
              | .error _ => PingEvent.pingError hook.name
            let evs := [TickEvent.triggered hook.id, .ping pingEv hook.url]
            if fault hook.id = .setFails then (wm, evs ++ [.storeError hook.id])
            else (kvSet wm hook.id now, evs)
          else (wm, [.alreadyTriggered hook.id])
      else (wm, [])

/-- The `for await` loop over the `["webhooks"]` listing: process each
schedule in order, threading the watermark store. -/
def processTick (cron : String → Option (Nat → Option Nat))
    (fetchFor : String → FetchOutcome) (fault : String → KvFault)
    (now : Nat) (hooks : List Webhook) (wm : List (String × Nat)) :
    List (String × Nat) × List TickEvent :=
  match hooks with
  | [] => (wm, [])
  | h :: rest =>
    let r := processHook cron fetchFor fault now wm h
    let r' := processTick cron fetchFor fault now rest r.1
    (r'.1, r.2 ++ r'.2)

/-- One full tick of the `webhook-kv-scheduler` cron job: list the stored
schedules and run the loop; the tick mutates only `last_triggered` keys. -/
def runTick (cron : String → Option (Nat → Option Nat))
    (fetchFor : String → FetchOutcome) (fault : String → KvFault)
    (now : Nat) (st : KVState) : KVState × List TickEvent :=
  let r := processTick cron fetchFor fault now (st.webhooks.map Prod.snd)
    st.lastTriggered
  ({ st with lastTriggered := r.1 }, r.2)

/-! ## JS built-in `atob` (forgiving-base64 decode)

Deno's `atob` implements the WHATWG forgiving-base64 decode: strip ASCII
whitespace; if the length is a multiple of four, remove up to two trailing
`=`; then fail (throw `InvalidCharacterError`) if the length is `1 mod 4`
or any character is outside the base64 alphabet; otherwise decode, each
output byte becoming one character.  `none` models the throw. -/

def isAsciiWhitespace (c : Char) : Bool :=
  c = ' ' || c = '\t' || c = '\n' || c = '\x0c' || c = '\r'

def base64Val (c : Char) : Option Nat :=
  if 'A' ≤ c ∧ c ≤ 'Z' then some (c.toNat - 65)
  else if 'a' ≤ c ∧ c ≤ 'z' then some (c.toNat - 97 + 26)
  else if '0' ≤ c ∧ c ≤ '9' then some (c.toNat - 48 + 52)
  else if c = '+' then some 62
  else if c = '/' then some 63
  else none

/-- Reassemble bytes from 6-bit groups (a trailing group of one value,
which the length check rules out, yields no byte). -/
def base64Bytes : List Nat → List Nat
  | a :: b :: c :: d :: rest =>
    (a * 4 + b / 16) :: (b % 16 * 16 + c / 4) :: (c % 4 * 64 + d) ::
      base64Bytes rest
  | [a, b, c] => [a * 4 + b / 16, b % 16 * 16 + c / 4]
  | [a, b] => [a * 4 + b / 16]
  | [_] => []
  | [] => []

/-- Remove one or two trailing `=` characters. -/
def stripBase64Padding (l : List Char) : List Char :=
  match l.reverse with
  | '=' :: '=' :: rest => rest.reverse
  | '=' :: rest => rest.reverse
  | _ => l

def atob (s : String) : Option String :=
  let data := s.toList.filter (fun c => !isAsciiWhitespace c)
  let data := if data.length % 4 = 0 then stripBase64Padding data else data
  if data.length % 4 = 1 then none
  else
    match data.mapM base64Val with
    | none => none
    | some vals => some (String.mk ((base64Bytes vals).map Char.ofNat))

/-! ## HTTP basic authentication middleware -/

/-- JS truthiness of a `Deno.env.get` result / JSON field: `undefined`
(absent) and the empty string are falsy. -/
def jsTruthy (o : Option String) : Bool :=
  match o with
  | none => false
  | some s => !(s = "")

/-- Character-sequence prefix test (helper for `strStartsWith`). -/
def strStartsWithAux : List Char → List Char → Bool
  | _, [] => true
  | [], _ :: _ => false
  | a :: as, b :: bs => a = b && strStartsWithAux as bs

/-- JS `String.prototype.startsWith`, as a character-sequence prefix
test. -/
def strStartsWith (s pre : String) : Bool :=
  strStartsWithAux s.toList pre.toList

/-- JS `String.prototype.split` with a one-character separator. -/
def splitOnCharAux (sep : Char) : List Char → List Char → List (List Char)
  | [], acc => [acc.reverse]
  | c :: rest, acc =>
    if c = sep then acc.reverse :: splitOnCharAux sep rest []
    else splitOnCharAux sep rest (c :: acc)

def splitOnChar (s : List Char) (sep : Char) : List (List Char) :=
  splitOnCharAux sep s []

/-- The configured credentials: `Deno.env.get("WEBHOOK_ADMIN_USERNAME")`
and `Deno.env.get("WEBHOOK_ADMIN_PASSWORD")`. -/
structure AuthConfig where
  adminUsername : Option String
  adminPassword : Option String
deriving DecidableEq, Repr

/-- Outcome of `basicAuth(req)`: `proceed` is returning `null`,
`unauthorized` is the 401 response carrying the `WWW-Authenticate` header,
and `uncaughtError` is `atob` throwing with no enclosing `try`/`catch`,
so the exception escapes `basicAuth`. -/
inductive AuthResult where
  | proceed
  | unauthorized
  | uncaughtError
deriving DecidableEq, Repr

/-- `basicAuth(req)`, as a function of the configuration and the request's
`Authorization` header (`none` = header absent). -/
def basicAuth (cfg : AuthConfig) (authHeader : Option String) : AuthResult :=
  if !jsTruthy cfg.adminUsername || !jsTruthy cfg.adminPassword then .proceed
  else
    match authHeader with
    | none => .unauthorized
    | some h =>
      if !strStartsWith h "Basic " then .unauthorized
      else
        let encodedCreds := String.mk (h.toList.drop 6)
        match atob encodedCreds with
        | none => .uncaughtError
        | some decodedCreds =>
          let parts := splitOnChar decodedCreds.toList ':'
          let username := String.mk parts.headI
          let password := (parts.get? 1).map String.mk
          if some username = cfg.adminUsername ∧ password = cfg.adminPassword
          then .proceed
          else .unauthorized

/-! ## CRUD handlers -/

/-- The parsed JSON body of `POST /hooks`; `none` models an absent field. -/
structure CreateBody where
  name : Option String
  url : Option String
  schedule : Option String
deriving DecidableEq, Repr

inductive CreateResult where
  | missingFields
  | created (hook : Webhook)
deriving DecidableEq, Repr

/-- The `POST /hooks` branch of `handler`: reject with 400 when `name`,
`url` or `schedule` is falsy, otherwise build the new `Webhook` (with a
fresh `id` and `createdAt`, both supplied here as parameters since they
come from `crypto.randomUUID()` and the clock) and persist it verbatim. -/
def createHandler (body : CreateBody) (newId nowIso : String) (st : KVState) :
    CreateResult × KVState :=
  if !jsTruthy body.name || !jsTruthy body.url || !jsTruthy body.schedule then
    (.missingFields, st)
  else
    let newHook : Webhook :=
      { id := newId
        name := body.name.getD ""
        url := body.url.getD ""
        schedule := body.schedule.getD ""
        createdAt := nowIso }
    (.created newHook, { st with webhooks := kvSet st.webhooks newId newHook })

/-- The parsed JSON body of `PUT /hooks/:id` (`Partial<Webhook>`);
`none` models an absent field. -/
structure PartialWebhook where
  id : Option String := none
  name : Option String := none
  url : Option String := none
  schedule : Option String := none
  createdAt : Option String := none
deriving DecidableEq, Repr

/-- `updateWebhook(id, updatedData)`: spread the stored hook, then the
update, then force `id` and `createdAt` back to the stored values.
Returns `none` (the 404 path) when the id is not stored. -/
def updateWebhook (st : KVState) (id : String) (updatedData : PartialWebhook) :
    Option Webhook × KVState :=
  match kvGet st.webhooks id with
  | none => (none, st)
  | some currentHook =>
    let newHook : Webhook :=
      { id := currentHook.id
        name := updatedData.name.getD currentHook.name
        url := updatedData.url.getD currentHook.url
        schedule := updatedData.schedule.getD currentHook.schedule
        createdAt := currentHook.createdAt }
    (some newHook, { st with webhooks := kvSet st.webhooks id newHook })

/-- The `DELETE /hooks/:id` branch of `handler`: a single
`kv.delete(["webhooks", id])`. -/
def deleteHandler (st : KVState) (id : String) : KVState :=
  { st with webhooks := kvDelete st.webhooks id }

/-! ## Concrete fixtures used by counterexamples and witnesses -/

def hook0 : Webhook :=
  { id := "h1", name := "daily", url := "https://example.com/a",
    schedule := "2 0 * * *", createdAt := "1970-01-01T00:00:00.000Z" }

/-- Evaluator behaviour of the expression `2 0 * * *` near the epoch: the
sole nearby occurrence is 1970-01-01T00:02:00Z (= 120000 ms). -/
def nextRun0 : Nat → Option Nat :=
  fun t => if t ≤ 120000 then some 120000 else none

def cron0 : String → Option (Nat → Option Nat) :=
  fun s => if s = "2 0 * * *" then some nextRun0 else none

def hook1 : Webhook :=
  { id := "h2", name := "one", url := "https://example.com/b",
    schedule := "1 0 * * *", createdAt := "1970-01-01T00:00:00.000Z" }

/-- Evaluator behaviour of `1 0 * * *` near the epoch: the sole nearby
occurrence is 1970-01-01T00:01:00Z (= 60000 ms). -/
def nextRun1 : Nat → Option Nat :=
  fun t => if t ≤ 60000 then some 60000 else none

def cron1 : String → Option (Nat → Option Nat) :=
  fun s => if s = "1 0 * * *" then some nextRun1 else none

def fetch0 : String → FetchOutcome := fun _ => .response true 200 false

/-- Every outbound POST fails at the network level. -/
def fetchThrow : String → FetchOutcome := fun _ => .thrown

def fault0 : String → KvFault := fun _ => .ok

/-! ## Store lemmas -/

theorem kvGet_kvSet_self {α : Type} (l : List (String × α)) (k : String)
    (v : α) : kvGet (kvSet l k v) k = some v := by
  induction l with
  | nil => simp [kvSet, kvGet]
  | cons p rest ih =>
    obtain ⟨k', v'⟩ := p
    by_cases h : k' = k
    · simp [kvSet, kvGet, h]
    · simp [kvSet, kvGet, h, ih]

theorem kvGet_kvSet_ne {α : Type} (l : List (String × α)) (k j : String)
    (v : α) (h : j ≠ k) : kvGet (kvSet l k v) j = kvGet l j := by
  induction l with
  | nil => simp [kvSet, kvGet, Ne.symm h]
  | cons p rest ih =>
    obtain ⟨k', v'⟩ := p
    by_cases hk : k' = k
    · subst hk
      simp [kvSet, kvGet, (Ne.symm h)]
    · simp only [kvSet, if_neg hk, kvGet]
      by_cases hj : k' = j <;> simp [hj, ih]

theorem kvGet_kvDelete_self {α : Type} (l : List (String × α)) (k : String) :
    kvGet (kvDelete l k) k = none := by
  induction l with
  | nil => simp [kvDelete, kvGet]
  | cons p rest ih =>
    obtain ⟨k', v'⟩ := p
    by_cases h : k' = k
    · simp [kvDelete, h, ih]
    · simp [kvDelete, kvGet, h, ih]

theorem sameUTCMinute_refl (n : Nat) : sameUTCMinute n n = true := by
  simp [sameUTCMinute]

/-! ## Loop-body lemmas -/

/-- The loop body either leaves the watermark store untouched or writes
exactly its own schedule's watermark to `now`. -/
theorem processHook_wm_cases (cron : String → Option (Nat → Option Nat))
    (fetchFor : String → FetchOutcome) (fault : String → KvFault)
    (now : Nat) (wm : List (String × Nat)) (hook : Webhook) :
    (processHook cron fetchFor fault now wm hook).1 = wm ∨
    (processHook cron fetchFor fault now wm hook).1 = kvSet wm hook.id now := by
  simp only [processHook]
  split
  · left; rfl
  · split
    · left; rfl
    · split
      · split
        · left; rfl
        · split
          · split
            · left; rfl
            · right; rfl
          · left; rfl
      · left; rfl

/-- The loop body never touches another schedule's watermark. -/
theorem processHook_kvGet_ne (cron : String → Option (Nat → Option Nat))
    (fetchFor : String → FetchOutcome) (fault : String → KvFault)
    (now : Nat) (wm : List (String × Nat)) (hook : Webhook) (j : String)
    (hj : j ≠ hook.id) :
    kvGet (processHook cron fetchFor fault now wm hook).1 j = kvGet wm j := by
  rcases processHook_wm_cases cron fetchFor fault now wm hook with h | h
  · rw [h]
  · rw [h]
    exact kvGet_kvSet_ne wm hook.id j now hj

/-- The events a schedule produces depend on the watermark store only
through that schedule's own entry. -/
theorem processHook_events_congr (cron : String → Option (Nat → Option Nat))
    (fetchFor : String → FetchOutcome) (fault : String → KvFault)
    (now : Nat) (wm₁ wm₂ : List (String × Nat)) (hook : Webhook)
    (h : kvGet wm₁ hook.id = kvGet wm₂ hook.id) :
    (processHook cron fetchFor fault now wm₁ hook).2 =
    (processHook cron fetchFor fault now wm₂ hook).2 := by
  simp only [processHook, h]
  split
  · rfl
  · split
    · rfl
    · split
      · split
        · rfl
        · split
          · split
            · rfl
            · rfl
          · rfl
      · rfl

/-- Tick-level congruence: with pairwise-distinct schedule ids, the event
trace depends only on the watermark entries of the listed schedules. -/
theorem processTick_events_congr (cron : String → Option (Nat → Option Nat))
    (fetchFor : String → FetchOutcome) (fault : String → KvFault)
    (now : Nat) (hooks : List Webhook) (wm₁ wm₂ : List (String × Nat))
    (hagree : ∀ h ∈ hooks, kvGet wm₁ h.id = kvGet wm₂ h.id)
    (hnd : (hooks.map Webhook.id).Nodup) :
    (processTick cron fetchFor fault now hooks wm₁).2 =
    (processTick cron fetchFor fault now hooks wm₂).2 := by
  induction hooks generalizing wm₁ wm₂ with
  | nil => rfl
  | cons h rest ih =>
    simp only [List.map, List.nodup_cons] at hnd
    simp only [processTick]
    have hh := hagree h (by simp)
    have hev := processHook_events_congr cron fetchFor fault now wm₁ wm₂ h hh
    rw [hev]
    congr 1
    apply ih
    · intro k hk
      have hkid : k.id ≠ h.id := by
        intro he
        exact hnd.1 (he ▸ List.mem_map_of_mem Webhook.id hk)
      rw [processHook_kvGet_ne cron fetchFor fault now wm₁ h k.id hkid,
        processHook_kvGet_ne cron fetchFor fault now wm₂ h k.id hkid]
      exact hagree k (List.mem_cons_of_mem h hk)
    · exact hnd.2

/-- With pairwise-distinct schedule ids, every schedule's event trace in a
tick is what it would be when evaluated alone from the tick's initial
watermark store: no schedule's outcome influences another's. -/
theorem processTick_flatten (cron : String → Option (Nat → Option Nat))
    (fetchFor : String → FetchOutcome) (fault : String → KvFault)
    (now : Nat) (hooks : List Webhook) (wm : List (String × Nat))
    (hnd : (hooks.map Webhook.id).Nodup) :
    (processTick cron fetchFor fault now hooks wm).2 =
    (hooks.map
      (fun k => (processHook cron fetchFor fault now wm k).2)).flatten := by
  induction hooks generalizing wm with
  | nil => rfl
  | cons h rest ih =>
    simp only [List.map, List.nodup_cons] at hnd
    simp only [processTick, List.map, List.flatten]
    congr 1
    rw [processTick_events_congr cron fetchFor fault now rest
      (processHook cron fetchFor fault now wm h).1 wm ?_ hnd.2]
    · exact ih wm hnd.2
    · intro k hk
      have hkid : k.id ≠ h.id := by
        intro he
        exact hnd.1 (he ▸ List.mem_map_of_mem Webhook.id hk)
      exact processHook_kvGet_ne cron fetchFor fault now wm h k.id hkid

/-- When the stored watermark shares `now`'s UTC minute, the loop body is
a no-op on the store and performs no dispatch, on every path. -/
theorem processHook_same_minute_noop
    (cron : String → Option (Nat → Option Nat))
    (fetchFor : String → FetchOutcome) (fault : String → KvFault)
    (now : Nat) (wm : List (String × Nat)) (hook : Webhook) (w : Nat)
    (hw : kvGet wm hook.id = some w)
    (hsame : sameUTCMinute w now = true) :
    (processHook cron fetchFor fault now wm hook).1 = wm ∧
    (processHook cron fetchFor fault now wm hook).2.all
      (fun e => !isPing e) = true := by
  cases hc : cron hook.schedule with
  | none => simp [processHook, hc, isPing]
  | some nextRun =>
    cases ho : nextRun (now - msPerMinute) with
    | none => simp [processHook, hc, ho]
    | some occ =>
      by_cases hdue : ((now : Int) - (occ : Int)).natAbs < 5 * 1000
      · by_cases hg : fault hook.id = KvFault.getFails
        · simp [processHook, hc, ho, if_pos hdue, hg, isPing]
        · simp [processHook, hc, ho, if_pos hdue, hg, hw, hsame, isPing]
      · simp [processHook, hc, ho, if_neg hdue]

/-! ## Claim C1 -/

/-- Claim C1, counterexample: the dedup comparison is against `now`'s UTC
minute, not the due occurrence's.  Here the evaluator reports the
occurrence 120000 ms (1970-01-01T00:02:00Z) as due at the tick instant
`now` = 118000 ms (00:01:58Z, within the 5-second window), and the stored
watermark 115500 ms lies in minute 00:01 — a different minute from the
occurrence's 00:02, so by the claim the loop must dispatch; instead the
code compares the watermark against `now`'s minute 00:01, finds them
equal, and skips without dispatching. -/
theorem dedup_compares_now_not_occurrence_cex :
    cron0 hook0.schedule = some nextRun0 ∧
    nextRun0 (118000 - msPerMinute) = some 120000 ∧
    ((118000 : Int) - (120000 : Int)).natAbs < 5 * 1000 ∧
    sameUTCMinute 115500 120000 = false ∧
    sameUTCMinute 115500 118000 = true ∧
    processHook cron0 fetch0 fault0 118000 [("h1", 115500)] hook0 =
      ([("h1", 115500)], [TickEvent.alreadyTriggered "h1"]) := by
  refine ⟨rfl, by decide, by decide, by decide, by decide, by decide⟩

/-- Claim C1 (amended): for a schedule found due on a tick with a stored
watermark, the loop skips it — no dispatch, no watermark write — exactly
when the watermark's recorded UTC minute (year, month, day, hour, minute)
equals the UTC minute of `now`, the current tick instant (not the minute
of the due occurrence returned by the evaluator). -/
theorem dedup_skip_iff_watermark_matches_now_minute
    (cron : String → Option (Nat → Option Nat))
    (fetchFor : String → FetchOutcome) (fault : String → KvFault)
    (now : Nat) (wm : List (String × Nat)) (hook : Webhook)
    (nextRun : Nat → Option Nat) (occ w : Nat)
    (hc : cron hook.schedule = some nextRun)
    (ho : nextRun (now - msPerMinute) = some occ)
    (hdue : ((now : Int) - (occ : Int)).natAbs < 5 * 1000)
    (hf : fault hook.id = KvFault.ok)
    (hw : kvGet wm hook.id = some w) :
    (processHook cron fetchFor fault now wm hook =
        (wm, [TickEvent.alreadyTriggered hook.id]))
      ↔ sameUTCMinute w now = true := by
  simp only [processHook, hc, ho, hw, hf, if_pos hdue]
  cases hs : sameUTCMinute w now <;> simp [hs]

/-- Witness for the amended C1 theorem at a concrete input: watermark
115500 and tick instant 118000 share the UTC minute 00:01, so the loop
skips. -/
theorem dedup_skip_iff_watermark_matches_now_minute_witness :
    processHook cron0 fetch0 fault0 118000 [("h1", 115500)] hook0 =
      ([("h1", 115500)], [TickEvent.alreadyTriggered hook0.id]) :=
  (dedup_skip_iff_watermark_matches_now_minute cron0 fetch0 fault0 118000
    [("h1", 115500)] hook0 nextRun0 120000 115500 rfl (by decide) (by decide)
    rfl (by decide)).mpr (by decide)

/-! ## Claim C2 -/

/-- Claim C2, counterexample: the same occurrence can be retried after a
failed dispatch.  The occurrence 120000 ms (1970-01-01T00:02:00Z) is due
at the tick instant 118000 ms (00:01:58Z); the dispatch fails at the
network level (`fetchThrow`), yet the watermark is written to 118000,
whose UTC minute is 00:01.  The next jittered tick at 123000 ms
(00:02:03Z) finds the same occurrence 120000 within the 5-second window,
compares the watermark's minute 00:01 against `now`'s minute 00:02,
finds them different, and dispatches the same occurrence a second time —
so "the same occurrence is never retried" is false of the code. -/
theorem failed_occurrence_redispatched_cex :
    nextRun0 (118000 - msPerMinute) = some 120000 ∧
    nextRun0 (123000 - msPerMinute) = some 120000 ∧
    ((118000 : Int) - (120000 : Int)).natAbs < 5 * 1000 ∧
    ((123000 : Int) - (120000 : Int)).natAbs < 5 * 1000 ∧
    processHook cron0 fetchThrow fault0 118000 [] hook0 =
      ([("h1", 118000)],
        [TickEvent.triggered "h1",
         TickEvent.ping (PingEvent.pingError "daily")
           "https://example.com/a"]) ∧
    processHook cron0 fetchThrow fault0 123000 [("h1", 118000)] hook0 =
      ([("h1", 123000)],
        [TickEvent.triggered "h1",
         TickEvent.ping (PingEvent.pingError "daily")
           "https://example.com/a"]) := by
  refine ⟨by decide, by decide, by decide, by decide, by decide, by decide⟩

/-- Claim C2 (amended): for a due, non-deduplicated schedule the loop
invokes the dispatcher and then — for every possible outcome of the
outbound call, `fetchFor` being universally quantified, network failures
included — writes the schedule's watermark to the current tick instant
`now`.  This prevents a re-dispatch at any later evaluation whose tick
instant lies in the same UTC minute as `now` (for every evaluator,
dispatch and fault oracle), but not across minutes: as the counterexample
shows, the dedup keys on the tick's minute rather than the occurrence's,
so the same occurrence — a failed one included — can be dispatched again
at a later tick lying in a different minute that still finds it within
tolerance. -/
theorem watermark_written_regardless_of_dispatch
    (cron : String → Option (Nat → Option Nat))
    (fetchFor : String → FetchOutcome) (fault : String → KvFault)
    (now : Nat) (wm : List (String × Nat)) (hook : Webhook)
    (nextRun : Nat → Option Nat) (occ : Nat)
    (hc : cron hook.schedule = some nextRun)
    (ho : nextRun (now - msPerMinute) = some occ)
    (hdue : ((now : Int) - (occ : Int)).natAbs < 5 * 1000)
    (hf : fault hook.id = KvFault.ok)
    (hnot : ∀ w, kvGet wm hook.id = some w → sameUTCMinute w now = false) :
    (∃ pe, processHook cron fetchFor fault now wm hook =
        (kvSet wm hook.id now,
          [TickEvent.triggered hook.id, TickEvent.ping pe hook.url])) ∧
    kvGet (processHook cron fetchFor fault now wm hook).1 hook.id = some now ∧
    (∀ (cron' : String → Option (Nat → Option Nat))
        (fetchFor' : String → FetchOutcome) (fault' : String → KvFault)
        (now' : Nat), sameUTCMinute now now' = true →
      (processHook cron' fetchFor' fault' now'
          (kvSet wm hook.id now) hook).1 = kvSet wm hook.id now ∧
      (processHook cron' fetchFor' fault' now'
          (kvSet wm hook.id now) hook).2.all (fun e => !isPing e) = true) := by
  have h1 : processHook cron fetchFor fault now wm hook =
      (kvSet wm hook.id now,
        [TickEvent.triggered hook.id,
         TickEvent.ping
           (match pingWebhook hook.url hook.name (fetchFor hook.url) with
             | .ok ev => ev
             | .error _ => PingEvent.pingError hook.name) hook.url]) := by
    simp only [processHook, hc, ho, if_pos hdue, hf]
    cases hl : kvGet wm hook.id with
    | none => simp
    | some w => simp [hnot w hl]
  refine ⟨⟨_, h1⟩, ?_, ?_⟩
  · rw [h1]
    exact kvGet_kvSet_self wm hook.id now
  · intro cron' fetchFor' fault' now' hsame
    exact processHook_same_minute_noop cron' fetchFor' fault' now'
      (kvSet wm hook.id now) hook now (kvGet_kvSet_self wm hook.id now) hsame

/-- Witness for the amended C2 theorem with a network-level dispatch
failure (`fetchThrow`): the watermark is still written to the tick
instant 118000, and a later evaluation at 118500 — inside the same UTC
minute — performs no dispatch. -/
theorem watermark_written_regardless_of_dispatch_witness :
    kvGet (processHook cron0 fetchThrow fault0 118000 [] hook0).1 hook0.id =
      some 118000 ∧
    (processHook cron0 fetch0 fault0 118500
        (kvSet [] hook0.id 118000) hook0).2.all (fun e => !isPing e) = true :=
  have h := watermark_written_regardless_of_dispatch cron0 fetchThrow fault0
    118000 [] hook0 nextRun0 120000 rfl (by decide) (by decide) rfl
    (fun w hw => by simp [kvGet] at hw)
  ⟨h.2.1, (h.2.2 cron0 fetch0 fault0 118500 (by decide)).2⟩

/-! ## Claim C3 -/

/-- Claim C3, counterexample: the due test is the strict inequality
`|now − occurrence| < 5000 ms`, not membership in the closed interval
`[now − 5 s, now + 5 s]`.  With `now` = 65000 ms and the evaluator's
occurrence at 60000 ms the distance is exactly 5000 ms: the occurrence
lies inside the claimed closed interval, yet the loop treats the schedule
as not due — no dispatch, no skip log, no watermark write. -/
theorem due_window_boundary_cex :
    cron1 hook1.schedule = some nextRun1 ∧
    nextRun1 (65000 - msPerMinute) = some 60000 ∧
    (65000 - 5 * 1000 ≤ 60000 ∧ 60000 ≤ 65000 + 5 * 1000) ∧
    processHook cron1 fetch0 fault0 65000 [] hook1 = ([], []) := by
  refine ⟨rfl, by decide, by decide, by decide⟩

/-- Claim C3 (amended): on a tick at `now` the loop asks the evaluator for
the next occurrence from `windowStart = now − one minute` (the
hypothesis `ho`), and the schedule is treated as due — producing any
events at all — iff that occurrence lies strictly within 5 seconds of
`now`, i.e. `|now − occ| < 5000 ms` (an open interval, not the closed
one). -/
theorem due_iff_strictly_within_tolerance
    (cron : String → Option (Nat → Option Nat))
    (fetchFor : String → FetchOutcome) (fault : String → KvFault)
    (now : Nat) (wm : List (String × Nat)) (hook : Webhook)
    (nextRun : Nat → Option Nat) (occ : Nat)
    (hc : cron hook.schedule = some nextRun)
    (ho : nextRun (now - msPerMinute) = some occ)
    (hf : fault hook.id = KvFault.ok) :
    (processHook cron fetchFor fault now wm hook).2 ≠ [] ↔
      ((now : Int) - (occ : Int)).natAbs < 5 * 1000 := by
  simp only [processHook, hc, ho, hf]
  by_cases hdue : ((now : Int) - (occ : Int)).natAbs < 5 * 1000
  · rw [if_pos hdue]
    simp only [hdue, iff_true]
    cases hl : kvGet wm hook.id with
    | none => simp
    | some w => cases hs : sameUTCMinute w now <;> simp [hs]
  · rw [if_neg hdue]
    simp [hdue]

/-- Witness for the amended C3 theorem: occurrence 120000 at tick instant
118000 is 2000 ms away, strictly inside the window, so events are
produced. -/
theorem due_iff_strictly_within_tolerance_witness :
    (processHook cron0 fetch0 fault0 118000 [] hook0).2 ≠ [] :=
  (due_iff_strictly_within_tolerance cron0 fetch0 fault0 118000 [] hook0
    nextRun0 120000 rfl (by decide) rfl).mpr (by decide)

/-! ## Claim C4 -/

def hookBad : Webhook :=
  { id := "bad", name := "broken", url := "https://example.com/c",
    schedule := "* * *", createdAt := "1970-01-01T00:00:00.000Z" }

/-- Claim C4: (i) a schedule whose cron expression fails to parse at
evaluation time contributes exactly its error log to the tick, leaves the
watermark store exactly as the remaining schedules leave it, and the
remaining schedules are processed exactly as if it were absent; (ii) a
tick never mutates the schedule store, so the failing schedule remains
stored; (iii) with pairwise-distinct ids, each schedule's event trace
(evaluation and dispatch) in a tick equals its trace when evaluated alone
from the tick's initial watermark store, for every evaluator, dispatch
outcome, and injected per-schedule store fault — one schedule's failure
never prevents another's evaluation or dispatch. -/
theorem per_schedule_failure_containment :
    (∀ (cron : String → Option (Nat → Option Nat))
        (fetchFor : String → FetchOutcome) (fault : String → KvFault)
        (now : Nat) (h : Webhook) (rest : List Webhook)
        (wm : List (String × Nat)), cron h.schedule = none →
      processTick cron fetchFor fault now (h :: rest) wm =
        ((processTick cron fetchFor fault now rest wm).1,
          TickEvent.cronParseError h.id ::
            (processTick cron fetchFor fault now rest wm).2)) ∧
    (∀ (cron : String → Option (Nat → Option Nat))
        (fetchFor : String → FetchOutcome) (fault : String → KvFault)
        (now : Nat) (st : KVState),
      (runTick cron fetchFor fault now st).1.webhooks = st.webhooks) ∧
    (∀ (cron : String → Option (Nat → Option Nat))
        (fetchFor : String → FetchOutcome) (fault : String → KvFault)
        (now : Nat) (hooks : List Webhook) (wm : List (String × Nat)),
      (hooks.map Webhook.id).Nodup →
      (processTick cron fetchFor fault now hooks wm).2 =
        (hooks.map
          (fun k => (processHook cron fetchFor fault now wm k).2)).flatten) :=
  ⟨fun cron fetchFor fault now h rest wm hparse => by
      simp [processTick, processHook, hparse],
   fun _ _ _ _ _ => rfl,
   fun cron fetchFor fault now hooks wm hnd =>
      processTick_flatten cron fetchFor fault now hooks wm hnd⟩

/-- Witness for C4 at a concrete tick: `hookBad`'s expression fails to
parse under `cron0`, it is logged and skipped, and `hook0` is processed
exactly as when alone. -/
theorem per_schedule_failure_containment_witness :
    (processTick cron0 fetch0 fault0 118000 [hookBad, hook0] [] =
      ((processTick cron0 fetch0 fault0 118000 [hook0] []).1,
        TickEvent.cronParseError hookBad.id ::
          (processTick cron0 fetch0 fault0 118000 [hook0] []).2)) ∧
    ((processTick cron0 fetch0 fault0 118000 [hookBad, hook0] []).2 =
      ([hookBad, hook0].map
        (fun k => (processHook cron0 fetch0 fault0 118000 [] k).2)).flatten) :=
  ⟨per_schedule_failure_containment.1 cron0 fetch0 fault0 118000 hookBad
      [hook0] [] rfl,
   per_schedule_failure_containment.2.2 cron0 fetch0 fault0 118000
      [hookBad, hook0] [] (by decide)⟩

/-! ## Claim C5 -/

/-- Claim C5: `pingWebhook` returns normally for every input URL and name
and every outcome of the outbound HTTP POST — any response (non-2xx
included, even when reading its body fails) and any network-level error —
so no exception ever propagates past the dispatcher's boundary. -/
theorem pingWebhook_never_raises (webhookUrl name : String)
    (f : FetchOutcome) :
    ∃ ev, pingWebhook webhookUrl name f = Except.ok ev := by
  unfold pingWebhook pingAttempt
  by_cases hu : webhookUrl = ""
  · simp [hu]
  · cases f with
    | thrown => simp [hu]
    | response ok status textFails =>
      cases ok <;> cases textFails <;> simp [hu]

/-! ## Claim C6 -/

/-- Claim C6: if a schedule's watermark is already recorded in the same
UTC minute as `now`, re-running the tick's evaluation for that schedule
at the same `now` performs zero dispatcher invocations and leaves the
watermark store unchanged, whatever the evaluator, dispatch outcomes and
store faults do. -/
theorem tick_reevaluation_idempotent
    (cron : String → Option (Nat → Option Nat))
    (fetchFor : String → FetchOutcome) (fault : String → KvFault)
    (now : Nat) (wm : List (String × Nat)) (hook : Webhook) (w : Nat)
    (hw : kvGet wm hook.id = some w)
    (hsame : sameUTCMinute w now = true) :
    (processHook cron fetchFor fault now wm hook).1 = wm ∧
    (processHook cron fetchFor fault now wm hook).2.all
      (fun e => !isPing e) = true :=
  processHook_same_minute_noop cron fetchFor fault now wm hook w hw hsame

/-- Witness for C6: watermark 118000 and tick instant 118500 share minute
00:01; the re-run makes no dispatch and leaves the store unchanged. -/
theorem tick_reevaluation_idempotent_witness :
    (processHook cron0 fetch0 fault0 118500 [("h1", 118000)] hook0).1 =
      [("h1", 118000)] ∧
    (processHook cron0 fetch0 fault0 118500 [("h1", 118000)] hook0).2.all
      (fun e => !isPing e) = true :=
  tick_reevaluation_idempotent cron0 fetch0 fault0 118500 [("h1", 118000)]
    hook0 118000 (by decide) (by decide)

/-! ## Claim C7 -/

def badBody : CreateBody :=
  { name := some "  My Hook  ", url := some "https://example.com/x",
    schedule := some "not a cron" }

def hook9 : Webhook :=
  { id := "id9", name := "  My Hook  ", url := "https://example.com/x",
    schedule := "not a cron", createdAt := "2026-01-01T00:00:00.000Z" }

/-- Claim C7, counterexample: the create handler neither trims nor
validates.  A request whose schedule `"not a cron"` fails evaluator
parsing and whose name carries surrounding whitespace is accepted with
201 and persisted verbatim — the unparseable expression reaches the
store, contradicting the claim that such a request is rejected. -/
theorem create_persists_unparseable_cex :
    cron0 "not a cron" = none ∧
    createHandler badBody "id9" "2026-01-01T00:00:00.000Z"
        { webhooks := [], lastTriggered := [] } =
      (CreateResult.created hook9,
        { webhooks := [("id9", hook9)], lastTriggered := [] }) ∧
    hook9.schedule = "not a cron" ∧
    hook9.name = "  My Hook  " := by
  refine ⟨rfl, by decide, rfl, rfl⟩

/-- Claim C7 (amended): the create operation rejects with a 400 exactly
those requests in which `name`, `url` or `schedule` is missing or the
empty string (JS falsiness); it performs no trimming and no cron
validation, and any other request is persisted verbatim — unparseable
expressions included, which then only fail (and are skipped) at
evaluation time. -/
theorem create_validation_behavior (body : CreateBody)
    (newId nowIso : String) (st : KVState) :
    ((jsTruthy body.name = false ∨ jsTruthy body.url = false ∨
        jsTruthy body.schedule = false) →
      createHandler body newId nowIso st = (CreateResult.missingFields, st)) ∧
    (∀ n u s, body.name = some n → body.url = some u →
      body.schedule = some s → n ≠ "" → u ≠ "" → s ≠ "" →
      createHandler body newId nowIso st =
        (CreateResult.created ⟨newId, n, u, s, nowIso⟩,
          { st with
              webhooks :=
                kvSet st.webhooks newId ⟨newId, n, u, s, nowIso⟩ })) := by
  constructor
  · intro hfal
    unfold createHandler
    rcases hfal with h | h | h <;> simp [h]
  · intro n u s hn hu hs hn' hu' hs'
    unfold createHandler
    simp [hn, hu, hs, jsTruthy, hn', hu', hs']

/-- Witness for the amended C7 theorem: a missing `name` is rejected,
while `badBody` (whitespace name, unparseable schedule) is persisted. -/
theorem create_validation_behavior_witness :
    createHandler { name := none, url := some "u", schedule := some "s" }
        "i" "t" { webhooks := [], lastTriggered := [] } =
      (CreateResult.missingFields, { webhooks := [], lastTriggered := [] }) ∧
    createHandler badBody "id9" "2026-01-01T00:00:00.000Z"
        { webhooks := [], lastTriggered := [] } =
      (CreateResult.created hook9,
        { webhooks := [("id9", hook9)], lastTriggered := [] }) :=
  ⟨(create_validation_behavior _ "i" "t" _).1 (Or.inl rfl),
   (create_validation_behavior badBody "id9" "2026-01-01T00:00:00.000Z"
      { webhooks := [], lastTriggered := [] }).2
     "  My Hook  " "https://example.com/x" "not a cron" rfl rfl rfl
     (by decide) (by decide) (by decide)⟩

/-! ## Claim C8 -/

def st8 : KVState :=
  { webhooks := [("h1", hook0)], lastTriggered := [("h1", 115500)] }

/-- Claim C8, counterexample: deleting a stored schedule removes only the
schedule record; the schedule's watermark (`last_triggered`) record
survives the delete, contradicting the claim that both are removed. -/
theorem delete_leaves_watermark_cex :
    kvGet st8.webhooks "h1" = some hook0 ∧
    kvGet st8.lastTriggered "h1" = some 115500 ∧
    kvGet (deleteHandler st8 "h1").webhooks "h1" = none ∧
    kvGet (deleteHandler st8 "h1").lastTriggered "h1" = some 115500 := by
  refine ⟨by decide, by decide, by decide, by decide⟩

/-- Claim C8 (amended): for every store state and schedule id, the delete
operation removes the schedule record, and leaves the `last_triggered`
(watermark) records entirely untouched — the watermark is orphaned, not
removed. -/
theorem delete_removes_only_schedule (st : KVState) (id : String) :
    kvGet (deleteHandler st id).webhooks id = none ∧
    (deleteHandler st id).lastTriggered = st.lastTriggered :=
  ⟨kvGet_kvDelete_self st.webhooks id, rfl⟩

/-! ## Claim C9 -/

/-- Claim C9: for every existing schedule and every partial update, the
updated record takes each of `name`, `url`, `schedule` from the update
when present and from the stored record otherwise, while `id` and
`createdAt` always come from the stored record — even when the update
payload supplies values for them (`upd` is arbitrary, including its `id`
and `createdAt` fields); the result is both returned and persisted. -/
theorem update_preserves_unspecified_and_immutable (st : KVState)
    (id : String) (cur : Webhook) (upd : PartialWebhook)
    (hcur : kvGet st.webhooks id = some cur) :
    (updateWebhook st id upd).1 =
      some { id := cur.id, name := upd.name.getD cur.name,
             url := upd.url.getD cur.url,
             schedule := upd.schedule.getD cur.schedule,
             createdAt := cur.createdAt } ∧
    kvGet (updateWebhook st id upd).2.webhooks id =
      some { id := cur.id, name := upd.name.getD cur.name,
             url := upd.url.getD cur.url,
             schedule := upd.schedule.getD cur.schedule,
             createdAt := cur.createdAt } := by
  constructor
  · simp [updateWebhook, hcur]
  · simp [updateWebhook, hcur, kvGet_kvSet_self]

/-- A hostile partial update that tries to overwrite `id` and
`createdAt`. -/
def upd9 : PartialWebhook :=
  { id := some "evil", name := some "renamed",
    createdAt := some "2099-01-01T00:00:00.000Z" }

/-- Witness for C9: `upd9` renames the hook but its `id` and `createdAt`
values are ignored; `url` and `schedule`, unspecified, are retained. -/
theorem update_preserves_unspecified_and_immutable_witness :
    (updateWebhook { webhooks := [("h1", hook0)], lastTriggered := [] }
        "h1" upd9).1 =
      some { id := "h1", name := "renamed", url := "https://example.com/a",
             schedule := "2 0 * * *",
             createdAt := "1970-01-01T00:00:00.000Z" } :=
  (update_preserves_unspecified_and_immutable
    { webhooks := [("h1", hook0)], lastTriggered := [] } "h1" hook0 upd9
    (by decide)).1

/-! ## Claim C10 -/

/-- No piece of a split ever contains the separator character. -/
theorem splitOnCharAux_not_mem (sep : Char) (s : List Char) :
    ∀ acc : List Char, sep ∉ acc →
      ∀ l ∈ splitOnCharAux sep s acc, sep ∉ l := by
  induction s with
  | nil =>
    intro acc hacc l hl
    simp only [splitOnCharAux, List.mem_singleton] at hl
    subst hl
    simpa using hacc
  | cons c rest ih =>
    intro acc hacc l hl
    by_cases hc : c = sep
    · simp only [splitOnCharAux, if_pos hc, List.mem_cons] at hl
      rcases hl with hl | hl
      · subst hl
        simpa using hacc
      · exact ih [] (by simp) l hl
    · simp only [splitOnCharAux, if_neg hc] at hl
      refine ih (c :: acc) ?_ l hl
      simp only [List.mem_cons]
      rintro (h | h)
      · exact hc h.symm
      · exact hacc h

theorem splitOnChar_not_mem (s : List Char) (sep : Char) :
    ∀ l ∈ splitOnChar s sep, sep ∉ l :=
  splitOnCharAux_not_mem sep s [] (by simp)

/-- With both credentials configured and non-empty, `basicAuth` lets a
request proceed iff its header is a `Basic ` header whose credentials
decode and split into a first segment equal to the configured username
and a second segment equal to the configured password. -/
theorem basicAuth_some_proceed_iff (u p h : String)
    (hu : u ≠ "") (hp : p ≠ "") :
    basicAuth ⟨some u, some p⟩ (some h) = AuthResult.proceed ↔
      (strStartsWith h "Basic " = true ∧
        ∃ d, atob (String.mk (h.toList.drop 6)) = some d ∧
          String.mk (splitOnChar d.toList ':').headI = u ∧
          ((splitOnChar d.toList ':').get? 1).map String.mk = some p) := by
  have hcond : (!jsTruthy (some u) || !jsTruthy (some p)) = false := by
    simp [jsTruthy, hu, hp]
  simp only [basicAuth, hcond]
  by_cases hsw : strStartsWith h "Basic " = true
  · cases hab : atob (String.mk (h.toList.drop 6)) with
    | none => simp [hsw]
    | some d =>
      by_cases hcnd :
          some (String.mk (splitOnChar d.toList ':').headI) = some u ∧
          ((splitOnChar d.toList ':').get? 1).map String.mk = some p
      · simp only [hsw, if_pos hcnd]
        simp only [Option.some.injEq] at hcnd
        obtain ⟨a, ha, hpa⟩ := Option.map_eq_some'.mp hcnd.2
        simp [hsw]
        refine ⟨hcnd.1, a, ?_, hpa⟩
        simpa using ha
      · simp only [hsw, if_neg hcnd]
        simp [hsw]
        intro h1 x hx hpx
        refine hcnd ⟨congrArg some h1, ?_⟩
        have hx' : (splitOnChar d.toList ':').get? 1 = some x := by
          simpa using hx
        rw [hx', Option.map_some', hpx]
  · simp only [Bool.not_eq_true] at hsw
    simp [hsw]

/-- With both credentials configured and non-empty, `basicAuth` throws
(the `atob` exception escaping it) iff the header is a `Basic ` header
whose credential part is not valid forgiving-base64. -/
theorem basicAuth_some_uncaught_iff (u p h : String)
    (hu : u ≠ "") (hp : p ≠ "") :
    basicAuth ⟨some u, some p⟩ (some h) = AuthResult.uncaughtError ↔
      (strStartsWith h "Basic " = true ∧
        atob (String.mk (h.toList.drop 6)) = none) := by
  have hcond : (!jsTruthy (some u) || !jsTruthy (some p)) = false := by
    simp [jsTruthy, hu, hp]
  simp only [basicAuth, hcond]
  by_cases hsw : strStartsWith h "Basic " = true
  · cases hab : atob (String.mk (h.toList.drop 6)) with
    | none => simp [hsw]
    | some d =>
      constructor
      · intro habs
        simp only [hsw, Bool.not_true] at habs
        rw [if_neg (by simp)] at habs
        by_cases hcnd :
            some (String.mk (splitOnChar d.toList ':').headI) = some u ∧
            ((splitOnChar d.toList ':').get? 1).map String.mk = some p
        · rw [if_pos hcnd] at habs
          exact absurd habs (by decide)
        · rw [if_neg hcnd] at habs
          exact absurd habs (by decide)
      · rintro ⟨-, habs⟩
        exact absurd habs (by simp)
  · simp only [Bool.not_eq_true] at hsw
    simp [hsw]

def cfg0 : AuthConfig :=
  { adminUsername := some "admin", adminPassword := some "pass" }

/-- Claim C10, counterexample: with credentials configured, a request
whose `Authorization` header is `Basic ####` — `####` not being valid
base64 — makes `atob` throw with no enclosing `try`/`catch`, so the
request neither proceeds nor receives the claimed 401 response. -/
theorem basicAuth_invalid_base64_cex :
    basicAuth cfg0 (some "Basic ####") = AuthResult.uncaughtError ∧
    AuthResult.uncaughtError ≠ AuthResult.proceed ∧
    AuthResult.uncaughtError ≠ AuthResult.unauthorized := by
  refine ⟨by decide, by decide, by decide⟩

/-- Claim C10 (amended): if either configured credential is unset or
empty, every request proceeds unchecked; otherwise a request proceeds iff
it carries a `Basic ` authorization header whose base64-decoded value,
split on `:`, has first segment equal to the configured username and
second segment equal to the configured password — so a configured
password containing a colon can never authenticate (split segments never
contain the separator) — and every other request receives the 401
response with the `WWW-Authenticate` header, except that a `Basic `
header whose credential part is not valid base64 makes the uncaught
`atob` exception escape `basicAuth` instead of producing a 401. -/
theorem basicAuth_behavior (u p : String) (hdr : Option String)
    (hu : u ≠ "") (hp : p ≠ "") :
    (∀ (cfg : AuthConfig) (h : Option String),
        (jsTruthy cfg.adminUsername = false ∨
          jsTruthy cfg.adminPassword = false) →
        basicAuth cfg h = AuthResult.proceed) ∧
    basicAuth ⟨some u, some p⟩ none = AuthResult.unauthorized ∧
    (∀ h : String,
        basicAuth ⟨some u, some p⟩ (some h) = AuthResult.proceed ↔
          (strStartsWith h "Basic " = true ∧
            ∃ d, atob (String.mk (h.toList.drop 6)) = some d ∧
              String.mk (splitOnChar d.toList ':').headI = u ∧
              ((splitOnChar d.toList ':').get? 1).map String.mk = some p)) ∧
    (∀ h : String,
        basicAuth ⟨some u, some p⟩ (some h) = AuthResult.uncaughtError ↔
          (strStartsWith h "Basic " = true ∧
            atob (String.mk (h.toList.drop 6)) = none)) ∧
    (p.toList.contains ':' = true →
      basicAuth ⟨some u, some p⟩ hdr ≠ AuthResult.proceed) ∧
    (basicAuth ⟨some u, some p⟩ hdr ≠ AuthResult.proceed →
      basicAuth ⟨some u, some p⟩ hdr ≠ AuthResult.uncaughtError →
      basicAuth ⟨some u, some p⟩ hdr = AuthResult.unauthorized) := by
  refine ⟨?_, ?_, ?_, ?_, ?_, ?_⟩
  · intro cfg h hfals
    rcases hfals with hf | hf <;> simp [basicAuth, hf]
  · simp [basicAuth, jsTruthy, hu, hp]
  · intro h
    exact basicAuth_some_proceed_iff u p h hu hp
  · intro h
    exact basicAuth_some_uncaught_iff u p h hu hp
  · intro hcolon hproc
    cases hdr with
    | none =>
      have h2 : basicAuth ⟨some u, some p⟩ none = AuthResult.unauthorized := by
        simp [basicAuth, jsTruthy, hu, hp]
      rw [hproc] at h2
      exact absurd h2 (by decide)
    | some h =>
      obtain ⟨-, d, -, -, hpart⟩ :=
        (basicAuth_some_proceed_iff u p h hu hp).mp hproc
      obtain ⟨a, ha, hpa⟩ := Option.map_eq_some'.mp hpart
      have hmem : a ∈ splitOnChar d.toList ':' := List.get?_mem ha
      have hnot : ':' ∉ a := splitOnChar_not_mem d.toList ':' a hmem
      have hap : a = p.toList := by
        cases p
        injection hpa
      rw [hap] at hnot
      exact hnot (by simpa using hcolon)
  · intro h1 h2
    cases hval : basicAuth ⟨some u, some p⟩ hdr with
    | proceed => exact absurd hval h1
    | unauthorized => rfl
    | uncaughtError => exact absurd hval h2

/-- Witness for the amended C10 theorem: `admin`/`pass` configured, a
header carrying base64 `admin:pass` proceeds. -/
theorem basicAuth_behavior_witness :
    basicAuth ⟨some "admin", some "pass"⟩
        (some "Basic YWRtaW46cGFzcw==") = AuthResult.proceed :=
  ((basicAuth_behavior "admin" "pass" (some "Basic YWRtaW46cGFzcw==")
      (by decide) (by decide)).2.2.1 "Basic YWRtaW46cGFzcw==").mpr
    ⟨by decide, "admin:pass", by decide, by decide, by decide⟩

end HookRunner
